import Mathlib

/-!
Verification of the Text-Image_Generator_AI repository
(src/text_image_generator.ipynb, a Streamlit script) against its
natural-language specification.

The script is a thin UI over a remote generation API.  We shallowly embed:

* the base64 decoder the image branch calls (`base64.b64decode` from the
  Python standard library, in its default non-validating mode: characters
  outside the alphabet are discarded, a remaining length that is not a
  multiple of 4 raises `binascii.Error`) together with the matching encoder
  `base64.b64encode`;
* the response data model (candidates, parts with a `text` string field and
  an optional `inline_data` blob, mirroring the API objects the loop at the
  bottom of the script inspects);
* the Response Interpreter: the `for part in response.candidates[0]
  .content.parts` loop, as a pure function returning the display outputs
  emitted before the loop either finishes or raises;
* the three button handlers and the startup credential check, as functions
  from their form inputs and an oracle for the remote call's outcome to the
  trace of Streamlit effects the script performs.  Static page furniture
  (`st.title`, `st.markdown`, widget rendering) is out of scope per the
  spec and is elided from traces; the remote API and PIL image parsing are
  external collaborators, so the API outcome is a parameter and a rendered
  image is represented by its decoded bytes.
-/

/-- The standard base64 alphabet, as in Python's `base64` module. -/
def b64Chars : List Char :=
  "ABCDEFGHIJKLMNOPQRSTUVWXYZabcdefghijklmnopqrstuvwxyz0123456789+/".toList

/-- Index of a character in the base64 alphabet, `none` if it is not there. -/
def b64Index (c : Char) : Option Nat :=
  b64Chars.findIdx? (· = c)

/-- The alphabet character for a sextet value (values `≥ 64` do not occur). -/
def b64Char (n : Nat) : Char :=
  b64Chars.getD n 'A'

/-- `base64.b64encode` on a byte list (bytes are `Nat < 256`): groups of three
bytes become four sextet characters, a final group of one or two bytes is
padded with `=`. -/
def b64encodeBytes : List Nat → List Char
  | [] => []
  | [a] => [b64Char (a / 4), b64Char (a % 4 * 16), '=', '=']
  | [a, b] => [b64Char (a / 4), b64Char (a % 4 * 16 + b / 16), b64Char (b % 16 * 4), '=']
  | a :: b :: c :: rest =>
      b64Char (a / 4) :: b64Char (a % 4 * 16 + b / 16) ::
        b64Char (b % 16 * 4 + c / 64) :: b64Char (c % 64) :: b64encodeBytes rest

/-- Decode groups of four base64 characters; `=` padding is accepted only at
the tail of the final group, and a leftover group of fewer than four
characters fails (Python raises `binascii.Error: Incorrect padding`). -/
def b64decodeQuads : List Char → Option (List Nat)
  | [] => some []
  | a :: b :: c :: d :: rest => do
      let x ← b64Index a
      let y ← b64Index b
      if c = '=' then
        if d = '=' && rest.isEmpty then some [x * 4 + y / 16] else none
      else do
        let z ← b64Index c
        if d = '=' then
          if rest.isEmpty then some [x * 4 + y / 16, y % 16 * 16 + z / 4] else none
        else do
          let w ← b64Index d
          let tl ← b64decodeQuads rest
          some ((x * 4 + y / 16) :: (y % 16 * 16 + z / 4) :: (z % 4 * 64 + w) :: tl)
  | _ => none

/-- `base64.b64decode` in its default mode: characters outside the alphabet
(other than `=`) are discarded, then the quads are decoded; `none` models the
`binascii.Error` the script's `except` clause would catch. -/
def b64decode (s : String) : Option (List Nat) :=
  b64decodeQuads (s.toList.filter fun c => c = '=' || (b64Index c).isSome)

/-- `base64.b64encode` producing a string. -/
def b64encode (bs : List Nat) : String :=
  String.mk (b64encodeBytes bs)

namespace GenAI

/-- An inline blob as returned by the API: a MIME type and a base64 payload
(the fields the loop reads from `part.inline_data`). -/
structure Blob where
  mime_type : String
  data : String
  deriving DecidableEq, Repr

/-- One content part.  The API object carries a `text` string (Python's
`if part.text:` is true exactly when it is non-empty) and an optional
`inline_data` blob (`elif part.inline_data:` is true when it is present). -/
structure Part where
  text : String
  inline_data : Option Blob
  deriving DecidableEq, Repr

/-- One candidate: its ordered content parts (`candidate.content.parts`). -/
structure Candidate where
  parts : List Part
  deriving DecidableEq, Repr

/-- A generation response: the ordered candidate list. -/
structure GenerationResponse where
  candidates : List Candidate
  deriving DecidableEq, Repr

/-- A renderable output of the Response Interpreter. -/
inductive Output where
  | displayText (s : String)
  | displayImage (bytes : List Nat) (mime : String)
  deriving DecidableEq, Repr

/-- Errors of the Response Interpreter, in the spec's taxonomy:
`noContentGenerated` is the `IndexError` raised by `response.candidates[0]`
on an empty candidate list, `imageDecodeError` the `binascii.Error` raised
by `base64.b64decode` on an invalid payload. -/
inductive GenError where
  | noContentGenerated
  | imageDecodeError
  deriving DecidableEq, Repr

/-- The part loop of the image handler, as a pure function: outputs emitted
(in loop order) before the loop finishes or raises.  Mirrors

```
for part in response.candidates[0].content.parts:
    if part.text:
        st.write(f"Model's description/text: \x7bpart.text\x7d")
    elif part.inline_data:
        image_data = base64.b64decode(part.inline_data.data)
        image = Image.open(BytesIO(image_data))
        st.image(image, caption="Generated Image", use_column_width=True)
```

A part failing both tests is passed over silently (there is no `else`).  A
decode failure raises, so the returned error ends the traversal: parts after
it are not inspected. -/
def interpretParts : List Part → List Output × Option GenError
  | [] => ([], none)
  | p :: rest =>
      if p.text ≠ "" then
        ((Output.displayText p.text) :: (interpretParts rest).1, (interpretParts rest).2)
      else
        match p.inline_data with
        | some blob =>
            match b64decode blob.data with
            | some bytes =>
                ((Output.displayImage bytes blob.mime_type) :: (interpretParts rest).1,
                  (interpretParts rest).2)
            | none => ([], some GenError.imageDecodeError)
        | none => interpretParts rest

/-- The Response Interpreter on a whole response: `response.candidates[0]`
raises `IndexError` on an empty list (spec: `NoContentGenerated`); otherwise
the first candidate's parts are traversed. -/
def interpret (r : GenerationResponse) : List Output × Option GenError :=
  match r.candidates with
  | [] => ([], some GenError.noContentGenerated)
  | c :: _ => interpretParts c.parts

/-- What a single part contributes when the loop body does not raise:
its text when non-empty, otherwise its decoded image, otherwise nothing. -/
def emitOne (p : Part) : Option Output :=
  if p.text ≠ "" then some (Output.displayText p.text)
  else
    match p.inline_data with
    | some blob => (b64decode blob.data).map (fun bs => Output.displayImage bs blob.mime_type)
    | none => none


/-- Python exceptions relevant to the script.  `keyError` is what
`st.secrets["GOOGLE_API_KEY"]` raises when the key is absent,
`attributeError` is the only class the startup handler catches,
`indexError` comes from `response.candidates[0]` on an empty list,
`binasciiError` from `base64.b64decode`, and `apiError` stands for any
exception the remote `generate_content` call raises. -/
inductive PyExn where
  | keyError
  | attributeError
  | indexError
  | binasciiError
  | apiError (msg : String)
  deriving DecidableEq, Repr

/-- How an exception prints inside the `f"Error ...: \x7be\x7d"` messages. -/
def renderExn : PyExn → String
  | PyExn.keyError => "'GOOGLE_API_KEY'"
  | PyExn.attributeError => "AttributeError"
  | PyExn.indexError => "list index out of range"
  | PyExn.binasciiError => "Invalid base64-encoded string"
  | PyExn.apiError msg => msg

/-- The Python exception behind an interpreter error. -/
def pyExnOfGenError : GenError → PyExn
  | GenError.noContentGenerated => PyExn.indexError
  | GenError.imageDecodeError => PyExn.binasciiError

/-- Optional generation parameters, mirroring the keyword arguments the
script passes to `types.GenerateContentConfig`. -/
structure GenerateContentConfig where
  max_output_tokens : Option Nat := none
  temperature : Option ℚ := none
  response_mime_types : List String := []
  deriving DecidableEq, Repr

/-- A request at the `generate_content` call boundary: the model the
`GenerativeModel` was built with, the prompt, and the generation config
(`none` when the call passes no `generation_config`). -/
structure GenRequest where
  model : String
  prompt : String
  config : Option GenerateContentConfig := none
  deriving DecidableEq, Repr

/-- The request of the plain text handler. -/
def textReq (q : String) : GenRequest :=
  { model := "gemini-pro", prompt := q }

/-- The request of the configurable text handler: the slider values are
passed to `GenerateContentConfig` unchanged. -/
def configReq (q : String) (maxTokens : Nat) (temp : ℚ) : GenRequest :=
  { model := "gemini-pro", prompt := q,
    config := some { max_output_tokens := some maxTokens, temperature := some temp } }

/-- The request of the image handler. -/
def imageReq (q : String) : GenRequest :=
  { model := "gemini-1.5-flash", prompt := q,
    config := some { response_mime_types := ["image/png"] } }

/-- Observable effects of one script run: Streamlit calls that render
something, plus the issuing of a remote API call and an uncaught exception
ending the run.  Static page furniture (title, markdown, widgets) is
elided. -/
inductive Event where
  | apiCall (req : GenRequest)
  | successMsg (s : String)
  | write (s : String)
  | image (bytes : List Nat) (caption : String)
  | warningMsg (s : String)
  | errorMsg (s : String)
  | infoMsg (s : String)
  | uncaught (e : PyExn)
  deriving DecidableEq, Repr

/-- Whether an event is an `st.warning` call. -/
def Event.isWarning : Event → Bool
  | Event.warningMsg _ => true
  | _ => false

/-- Whether an event issues a remote API call. -/
def Event.isApiCall : Event → Bool
  | Event.apiCall _ => true
  | _ => false

/-- How the image handler renders one interpreter output: `st.write` with
the description prelude for text, `st.image` for a decoded image (PIL's
parsing of the raster bytes is external display glue and not modelled). -/
def renderOutput : Output → Event
  | Output.displayText s => Event.write ("Model's description/text: " ++ s)
  | Output.displayImage bytes _ => Event.image bytes "Generated Image"

/-- Body of the `try` block of the plain text handler: the events it emits
and the exception it raises, if any.  The remote call's outcome is the
oracle `api` (`Except.ok` carries `response.text`). -/
def textTryBody (q : String) (api : Except PyExn String) : List Event × Option PyExn :=
  match api with
  | Except.error e => ([Event.apiCall (textReq q)], some e)
  | Except.ok t => ([Event.apiCall (textReq q), Event.successMsg "Response:", Event.write t], none)

/-- The plain text handler: empty-input guard, then `try`/`except` around
the call, converting any raised exception into an `st.error` message. -/
def textBlock (pressed : Bool) (q : String) (api : Except PyExn String) :
    List Event × Option PyExn :=
  if pressed then
    if q ≠ "" then
      match textTryBody q api with
      | (evs, some e) => (evs ++ [Event.errorMsg ("Error generating text: " ++ renderExn e)], none)
      | (evs, none) => (evs, none)
    else ([Event.warningMsg "Please enter a question."], none)
  else ([], none)

/-- Body of the `try` block of the configurable text handler. -/
def configTryBody (q : String) (maxTokens : Nat) (temp : ℚ) (api : Except PyExn String) :
    List Event × Option PyExn :=
  match api with
  | Except.error e => ([Event.apiCall (configReq q maxTokens temp)], some e)
  | Except.ok t =>
      ([Event.apiCall (configReq q maxTokens temp), Event.successMsg "Configured Response:",
        Event.write t], none)

/-- The configurable text handler. -/
def configBlock (pressed : Bool) (q : String) (maxTokens : Nat) (temp : ℚ)
    (api : Except PyExn String) : List Event × Option PyExn :=
  if pressed then
    if q ≠ "" then
      match configTryBody q maxTokens temp api with
      | (evs, some e) =>
          (evs ++ [Event.errorMsg ("Error generating configured text: " ++ renderExn e)], none)
      | (evs, none) => (evs, none)
    else ([Event.warningMsg "Please enter a topic to explain."], none)
  else ([], none)

/-- Body of the `try` block of the image handler: issue the call, print the
success banner, then run the part loop; an interpreter error becomes the
raised exception, with the outputs emitted before it already rendered. -/
def imageTryBody (q : String) (api : Except PyExn GenerationResponse) :
    List Event × Option PyExn :=
  match api with
  | Except.error e => ([Event.apiCall (imageReq q)], some e)
  | Except.ok r =>
      (Event.apiCall (imageReq q) :: Event.successMsg "Generated Image:" ::
        (interpret r).1.map renderOutput, (interpret r).2.map pyExnOfGenError)

/-- The image handler; its `except` clause prints the error and an extra
`st.info` hint. -/
def imageBlock (pressed : Bool) (q : String) (api : Except PyExn GenerationResponse) :
    List Event × Option PyExn :=
  if pressed then
    if q ≠ "" then
      match imageTryBody q api with
      | (evs, some e) =>
          (evs ++ [Event.errorMsg ("Error generating image: " ++ renderExn e),
            Event.infoMsg "Ensure you are using a model capable of image generation (e.g., `gemini-1.5-flash`)."], none)
      | (evs, none) => (evs, none)
    else ([Event.warningMsg "Please enter an image description."], none)
  else ([], none)

/-- `st.secrets[k]`: Streamlit's secrets mapping raises `KeyError` for an
absent key (bracket access follows the Mapping protocol). -/
def secretsGet (secrets : List (String × String)) (k : String) : Except PyExn String :=
  match secrets.lookup k with
  | some v => Except.ok v
  | none => Except.error PyExn.keyError

/-- Outcome of the startup credential check. -/
inductive StartupOutcome where
  | configured (key : String)
  | stopped
  | crashed (e : PyExn)
  deriving DecidableEq, Repr

/-- The startup block:

```
try:
    genai.configure(api_key=st.secrets["GOOGLE_API_KEY"])
except AttributeError:
    st.error("Please set your Google API Key in Streamlit secrets. ...")
    st.stop()
```

Only `AttributeError` is caught; any other exception from the lookup leaves
the script uncaught. -/
def startup (secrets : List (String × String)) : StartupOutcome :=
  match secretsGet secrets "GOOGLE_API_KEY" with
  | Except.ok v => StartupOutcome.configured v
  | Except.error PyExn.attributeError => StartupOutcome.stopped
  | Except.error e => StartupOutcome.crashed e

/-- One whole script run: the startup check, then the three independent
handler blocks in page order.  A `stopped` startup renders the credential
error and halts (`st.stop`); a `crashed` startup ends the run with the
uncaught exception; in both cases no handler runs. -/
def runPage (secrets : List (String × String))
    (tPressed : Bool) (tQuery : String) (tApi : Except PyExn String)
    (cPressed : Bool) (cQuery : String) (maxTokens : Nat) (temp : ℚ)
    (cApi : Except PyExn String)
    (iPressed : Bool) (iQuery : String) (iApi : Except PyExn GenerationResponse) :
    List Event :=
  match startup secrets with
  | StartupOutcome.crashed e => [Event.uncaught e]
  | StartupOutcome.stopped =>
      [Event.errorMsg "Please set your Google API Key in Streamlit secrets. Refer to the comments in the code."]
  | StartupOutcome.configured _ =>
      (textBlock tPressed tQuery tApi).1 ++ (configBlock cPressed cQuery maxTokens temp cApi).1 ++
        (imageBlock iPressed iQuery iApi).1

end GenAI

/-! ## Base64 facts -/

theorem b64Chars_length : b64Chars.length = 64 := by decide

theorem b64Index_b64Char : ∀ n < 64, b64Index (b64Char n) = some n := by decide

theorem b64Char_ne_pad : ∀ n < 64, b64Char n ≠ '=' := by decide

theorem b64Char_mem (n : Nat) : b64Char n ∈ b64Chars := by
  by_cases hn : n < 64
  · rw [b64Char, List.getD_eq_getElem _ _ (by rw [b64Chars_length]; exact hn)]
    exact List.getElem_mem _
  · rw [b64Char, List.getD_eq_default _ _ (by rw [b64Chars_length]; omega)]
    decide

theorem b64Index_isSome (c : Char) (hc : c ∈ b64Chars) : (b64Index c).isSome = true := by
  rw [b64Index, List.findIdx?_isSome]
  exact List.any_eq_true.mpr ⟨c, hc, by simp⟩

theorem mem_b64encodeBytes :
    ∀ (bs : List Nat) (ch : Char), ch ∈ b64encodeBytes bs → ch = '=' ∨ ch ∈ b64Chars
  | [], ch, hc => by simp [b64encodeBytes] at hc
  | [a], ch, hc => by
      simp only [b64encodeBytes, List.mem_cons, List.not_mem_nil, or_false] at hc
      rcases hc with rfl | rfl | rfl | rfl
      · exact Or.inr (b64Char_mem _)
      · exact Or.inr (b64Char_mem _)
      · exact Or.inl rfl
      · exact Or.inl rfl
  | [a, b], ch, hc => by
      simp only [b64encodeBytes, List.mem_cons, List.not_mem_nil, or_false] at hc
      rcases hc with rfl | rfl | rfl | rfl
      · exact Or.inr (b64Char_mem _)
      · exact Or.inr (b64Char_mem _)
      · exact Or.inr (b64Char_mem _)
      · exact Or.inl rfl
  | x :: y :: z :: rest, ch, hc => by
      simp only [b64encodeBytes, List.mem_cons] at hc
      rcases hc with rfl | rfl | rfl | rfl | hc
      · exact Or.inr (b64Char_mem _)
      · exact Or.inr (b64Char_mem _)
      · exact Or.inr (b64Char_mem _)
      · exact Or.inr (b64Char_mem _)
      · exact mem_b64encodeBytes rest ch hc

theorem b64decodeQuads_encodeBytes :
    ∀ (bs : List Nat), (∀ x ∈ bs, x < 256) → b64decodeQuads (b64encodeBytes bs) = some bs
  | [], _ => rfl
  | [a], h => by
      have ha : a < 256 := h a (by simp)
      show b64decodeQuads [b64Char (a / 4), b64Char (a % 4 * 16), '=', '='] = some [a]
      rw [b64decodeQuads, b64Index_b64Char (a / 4) (by omega),
        b64Index_b64Char (a % 4 * 16) (by omega)]
      simp
      omega
  | [a, b], h => by
      have ha : a < 256 := h a (by simp)
      have hb : b < 256 := h b (by simp)
      show b64decodeQuads
          [b64Char (a / 4), b64Char (a % 4 * 16 + b / 16), b64Char (b % 16 * 4), '='] = some [a, b]
      rw [b64decodeQuads, b64Index_b64Char (a / 4) (by omega),
        b64Index_b64Char (a % 4 * 16 + b / 16) (by omega),
        b64Index_b64Char (b % 16 * 4) (by omega)]
      simp [b64Char_ne_pad (b % 16 * 4) (by omega)]
      omega
  | a :: b :: c :: rest, h => by
      have ha : a < 256 := h a (by simp)
      have hb : b < 256 := h b (by simp)
      have hc : c < 256 := h c (by simp)
      have ih := b64decodeQuads_encodeBytes rest (fun x hx => h x (by simp [hx]))
      show b64decodeQuads
          (b64Char (a / 4) :: b64Char (a % 4 * 16 + b / 16) ::
            b64Char (b % 16 * 4 + c / 64) :: b64Char (c % 64) :: b64encodeBytes rest)
          = some (a :: b :: c :: rest)
      rw [b64decodeQuads, b64Index_b64Char (a / 4) (by omega),
        b64Index_b64Char (a % 4 * 16 + b / 16) (by omega),
        b64Index_b64Char (b % 16 * 4 + c / 64) (by omega),
        b64Index_b64Char (c % 64) (by omega), ih]
      simp [b64Char_ne_pad (b % 16 * 4 + c / 64) (by omega),
        b64Char_ne_pad (c % 64) (by omega)]
      omega

theorem b64decode_b64encode_aux (bs : List Nat) (h : ∀ x ∈ bs, x < 256) :
    b64decode (b64encode bs) = some bs := by
  rw [b64decode, b64encode]
  show b64decodeQuads ((b64encodeBytes bs).filter fun c => c = '=' || (b64Index c).isSome)
    = some bs
  rw [List.filter_eq_self.mpr ?_]
  · exact b64decodeQuads_encodeBytes bs h
  · intro c hc
    rcases mem_b64encodeBytes bs c hc with rfl | hmem
    · simp
    · simp [b64Index_isSome c hmem]

/-! ## Interpreter facts -/

namespace GenAI

/-- The outputs of the part loop are the in-order contributions of an
initial segment of the parts: all of them when the loop does not raise. -/
theorem interpretParts_take (ps : List Part) :
    ∃ n, n ≤ ps.length ∧ (interpretParts ps).1 = (ps.take n).filterMap emitOne ∧
      ((interpretParts ps).2 = none → n = ps.length) := by
  induction ps with
  | nil => exact ⟨0, by simp [interpretParts]⟩
  | cons p rest ih =>
      obtain ⟨n, hn, h1, h2⟩ := ih
      by_cases hp : p.text = ""
      · match hblob : p.inline_data with
        | none =>
            refine ⟨n + 1, by simp; omega, ?_, ?_⟩
            · simp [interpretParts, hp, hblob, emitOne, h1]
            · intro h0
              have := h2 (by simpa [interpretParts, hp, hblob] using h0)
              simp [this]
        | some blob =>
            match hdec : b64decode blob.data with
            | none =>
                refine ⟨0, by simp, ?_, ?_⟩
                · simp [interpretParts, hp, hblob, hdec]
                · intro h0
                  simp [interpretParts, hp, hblob, hdec] at h0
            | some bytes =>
                refine ⟨n + 1, by simp; omega, ?_, ?_⟩
                · simp [interpretParts, hp, hblob, hdec, emitOne, h1]
                · intro h0
                  have := h2 (by simpa [interpretParts, hp, hblob, hdec] using h0)
                  simp [this]
      · refine ⟨n + 1, by simp; omega, ?_, ?_⟩
        · simp [interpretParts, hp, emitOne, h1]
        · intro h0
          have := h2 (by simpa [interpretParts, hp] using h0)
          simp [this]

/-- The image handler renders no output as an `st.warning`. -/
theorem renderOutput_not_warning (o : Output) : (renderOutput o).isWarning = false := by
  cases o <;> rfl

end GenAI

/-! ## Claims -/

namespace GenAI

/-- C1: for a first candidate whose parts are Text "a" followed by an
InlineImage with a valid base64 PNG payload, the Response Interpreter
produces exactly DisplayText "a" then DisplayImage of the decoded bytes
with mime "image/png", in that order; and in general the emitted outputs
are the in-order per-part contributions of an initial segment of the part
list (the whole list when nothing raises), so output order equals input
part order. -/
theorem C1_outputs_in_part_order (payload : String) (bs : List Nat)
    (hdec : b64decode payload = some bs) :
    interpret { candidates := [{ parts := [{ text := "a", inline_data := none },
        { text := "", inline_data := some { mime_type := "image/png", data := payload } }] }] }
      = ([Output.displayText "a", Output.displayImage bs "image/png"], none)
    ∧ ∀ ps : List Part, ∃ n, n ≤ ps.length ∧
        (interpretParts ps).1 = (ps.take n).filterMap emitOne ∧
        ((interpretParts ps).2 = none → n = ps.length) := by
  exact ⟨by simp [interpret, interpretParts, hdec], interpretParts_take⟩

/-- Witness for C1 at the payload "AQID", whose decoding is [1, 2, 3]. -/
theorem C1_outputs_in_part_order_witness :
    b64decode "AQID" = some [1, 2, 3]
    ∧ interpret { candidates := [{ parts := [{ text := "a", inline_data := none },
        { text := "", inline_data := some { mime_type := "image/png", data := "AQID" } }] }] }
      = ([Output.displayText "a", Output.displayImage [1, 2, 3] "image/png"], none) :=
  ⟨by decide, (C1_outputs_in_part_order "AQID" [1, 2, 3] (by decide)).1⟩

/-- C2: a response with an empty candidate list makes the Response
Interpreter fail with NoContentGenerated (the `IndexError` from
`response.candidates[0]`) and produce zero display outputs. -/
theorem C2_empty_candidates (r : GenerationResponse) (h : r.candidates = []) :
    interpret r = ([], some GenError.noContentGenerated) := by
  cases r
  subst h
  rfl

/-- Witness for C2 at the empty response. -/
theorem C2_empty_candidates_witness :
    interpret { candidates := [] } = ([], some GenError.noContentGenerated) :=
  C2_empty_candidates { candidates := [] } rfl

/-- C3 counterexample: an InlineImage part with the invalid base64 payload
"abc" followed by a Text part "b".  The claim says the interpreter emits an
ImageDecodeError for the bad part and still processes the following part;
the code raises out of the loop, so nothing is emitted for the later text
part. -/
theorem C3_counterexample :
    interpretParts [{ text := "", inline_data := some { mime_type := "image/png", data := "abc" } },
        { text := "b", inline_data := none }]
      = ([], some GenError.imageDecodeError)
    ∧ Output.displayText "b"
        ∉ (interpretParts [{ text := "", inline_data := some { mime_type := "image/png", data := "abc" } },
            { text := "b", inline_data := none }]).1 := by
  decide

/-- C3 amended: an InlineImage part whose payload fails to decode raises
ImageDecodeError and aborts the traversal of the response: parts after it
are not processed and contribute no outputs. -/
theorem C3_decode_failure_aborts (p : Part) (blob : Blob) (rest : List Part)
    (hp : p.text = "") (hblob : p.inline_data = some blob)
    (hdec : b64decode blob.data = none) :
    interpretParts (p :: rest) = ([], some GenError.imageDecodeError) := by
  simp [interpretParts, hp, hblob, hdec]

/-- Witness for the amended C3 at the payload "abc". -/
theorem C3_decode_failure_aborts_witness :
    b64decode "abc" = none
    ∧ interpretParts [{ text := "", inline_data := some { mime_type := "image/png", data := "abc" } },
        { text := "x", inline_data := none }, { text := "y", inline_data := none }]
      = ([], some GenError.imageDecodeError) :=
  ⟨by decide,
    C3_decode_failure_aborts { text := "", inline_data := some { mime_type := "image/png", data := "abc" } }
      { mime_type := "image/png", data := "abc" } [{ text := "x", inline_data := none },
        { text := "y", inline_data := none }] rfl rfl (by decide)⟩

/-- C4: the claim says a missing credential halts the app with a surfaced
MissingCredential error before any action.  With no GOOGLE_API_KEY in the
secrets, `st.secrets["GOOGLE_API_KEY"]` raises `KeyError`, which the
`except AttributeError:` clause does not catch: the run dies with an
uncaught exception instead of reaching the `st.error` + `st.stop` path the
code's own comment ("Stop the app if the API key isn't found") intends.
The run still halts before any handler, so no API call is ever issued and
no handler trace appears, but the handled credential message is never
shown. -/
theorem C4_missing_key_uncaught :
    startup [] = StartupOutcome.crashed PyExn.keyError
    ∧ startup [] ≠ StartupOutcome.stopped
    ∧ ∀ (tP : Bool) (tQ : String) (tApi : Except PyExn String)
        (cP : Bool) (cQ : String) (mt : Nat) (temp : ℚ) (cApi : Except PyExn String)
        (iP : Bool) (iQ : String) (iApi : Except PyExn GenerationResponse),
        runPage [] tP tQ tApi cP cQ mt temp cApi iP iQ iApi
          = [Event.uncaught PyExn.keyError] :=
  ⟨rfl, by decide, fun _ _ _ _ _ _ _ _ _ _ _ => rfl⟩

/-- C6 counterexample: a part with empty text and no inline data, followed
by a Text part.  The claim says the unrecognized part is skipped **with a
logged warning**; in the code the `if`/`elif` has no `else`, so the whole
image-handler trace contains no warning at all (the skip itself and the
continuation do happen). -/
theorem C6_counterexample :
    ((imageBlock true "x" (Except.ok { candidates := [{ parts :=
          [{ text := "", inline_data := none }, { text := "b", inline_data := none }] }] })).1.all
        fun e => !e.isWarning) = true
    ∧ interpretParts [{ text := "", inline_data := none }, { text := "b", inline_data := none }]
        = ([Output.displayText "b"], none) := by
  decide

/-- C6 amended: a part that is neither a non-empty Text nor an InlineImage
is skipped silently — it contributes no output and no warning is logged —
and the skip is not fatal: the remaining parts are processed exactly as if
the part were absent.  Moreover the image handler's trace on a non-empty
prompt never contains a warning, whatever the response. -/
theorem C6_unrecognized_skipped (p : Part) (rest : List Part)
    (hp : p.text = "") (hblob : p.inline_data = none) :
    interpretParts (p :: rest) = interpretParts rest
    ∧ ∀ (q : String) (r : GenerationResponse), q ≠ "" →
        ((imageBlock true q (Except.ok r)).1.all fun e => !e.isWarning) = true := by
  constructor
  · simp [interpretParts, hp, hblob]
  · intro q r hq
    cases hi : (interpret r).2 <;>
      · simp [imageBlock, imageTryBody, hq, hi, List.all_eq_true, Event.isWarning,
          renderOutput_not_warning]
        intro a _
        exact renderOutput_not_warning a

/-- Witness for the amended C6 at a concrete unrecognized part. -/
theorem C6_unrecognized_skipped_witness :
    interpretParts [{ text := "", inline_data := none }, { text := "t", inline_data := none }]
      = interpretParts [{ text := "t", inline_data := none }]
    ∧ ((imageBlock true "x" (Except.ok { candidates := [] })).1.all
        fun e => !e.isWarning) = true :=
  ⟨(C6_unrecognized_skipped { text := "", inline_data := none }
      [{ text := "t", inline_data := none }] rfl rfl).1,
    (C6_unrecognized_skipped { text := "", inline_data := none }
      [{ text := "t", inline_data := none }] rfl rfl).2 "x" { candidates := [] } (by decide)⟩

/-- C5: for any in-range pair of slider values (max output tokens in
[50, 500], temperature in [0, 2]) and a non-empty topic, the configured
text handler's first event is the API call, and the request at that
boundary carries exactly the slider values, untransformed. -/
theorem C5_config_passthrough (q : String) (hq : q ≠ "") (mt : Nat) (temp : ℚ)
    (hmt : 50 ≤ mt ∧ mt ≤ 500) (htemp : 0 ≤ temp ∧ temp ≤ 2)
    (api : Except PyExn String) :
    (∃ evs, (configBlock true q mt temp api).1
      = Event.apiCall (configReq q mt temp) :: evs)
    ∧ (configReq q mt temp).config
        = some { max_output_tokens := some mt
                 temperature := some temp
                 response_mime_types := [] } := by
  refine ⟨?_, rfl⟩
  rcases api with e | t
  · exact ⟨[Event.errorMsg ("Error generating configured text: " ++ renderExn e)],
      by simp [configBlock, configTryBody, hq]⟩
  · exact ⟨[Event.successMsg "Configured Response:", Event.write t],
      by simp [configBlock, configTryBody, hq]⟩

/-- Witness for C5 at max_output_tokens = 100 and temperature = 1.5. -/
theorem C5_config_passthrough_witness :
    ("Explain how AI works" ≠ "") ∧ (50 ≤ 100 ∧ 100 ≤ 500)
    ∧ ((0 : ℚ) ≤ 3 / 2 ∧ (3 / 2 : ℚ) ≤ 2)
    ∧ ((∃ evs, (configBlock true "Explain how AI works" 100 (3 / 2) (Except.ok "fine")).1
        = Event.apiCall (configReq "Explain how AI works" 100 (3 / 2)) :: evs)
      ∧ (configReq "Explain how AI works" 100 (3 / 2)).config
          = some { max_output_tokens := some 100
                   temperature := some (3 / 2)
                   response_mime_types := [] }) :=
  ⟨by decide, by decide, by norm_num,
    C5_config_passthrough "Explain how AI works" (by decide) 100 (3 / 2)
      (by decide) (by norm_num) (Except.ok "fine")⟩

/-- C7: every exception raised inside a triggered handler is caught at that
handler's boundary — no handler lets an exception escape — and a failing
remote call is converted into a user-visible `st.error` message; a page run
is the concatenation of the three handlers' independent traces, so an error
is terminal to its own action only. -/
theorem C7_errors_contained :
    (∀ (pressed : Bool) (q : String) (api : Except PyExn String),
      (textBlock pressed q api).2 = none)
    ∧ (∀ (pressed : Bool) (q : String) (mt : Nat) (temp : ℚ) (api : Except PyExn String),
      (configBlock pressed q mt temp api).2 = none)
    ∧ (∀ (pressed : Bool) (q : String) (api : Except PyExn GenerationResponse),
      (imageBlock pressed q api).2 = none)
    ∧ (∀ (q : String) (e : PyExn), q ≠ "" →
      Event.errorMsg ("Error generating text: " ++ renderExn e)
        ∈ (textBlock true q (Except.error e)).1)
    ∧ (∀ (q : String) (mt : Nat) (temp : ℚ) (e : PyExn), q ≠ "" →
      Event.errorMsg ("Error generating configured text: " ++ renderExn e)
        ∈ (configBlock true q mt temp (Except.error e)).1)
    ∧ (∀ (q : String) (e : PyExn), q ≠ "" →
      Event.errorMsg ("Error generating image: " ++ renderExn e)
        ∈ (imageBlock true q (Except.error e)).1)
    ∧ (∀ (secrets : List (String × String)) (k : String)
        (tP : Bool) (tQ : String) (tApi : Except PyExn String)
        (cP : Bool) (cQ : String) (mt : Nat) (temp : ℚ) (cApi : Except PyExn String)
        (iP : Bool) (iQ : String) (iApi : Except PyExn GenerationResponse),
        startup secrets = StartupOutcome.configured k →
        runPage secrets tP tQ tApi cP cQ mt temp cApi iP iQ iApi
          = (textBlock tP tQ tApi).1 ++ (configBlock cP cQ mt temp cApi).1 ++
              (imageBlock iP iQ iApi).1) := by
  refine ⟨?_, ?_, ?_, ?_, ?_, ?_, ?_⟩
  · intro pressed q api
    cases pressed <;> by_cases hq : q = "" <;> rcases api with e | t <;>
      simp [textBlock, textTryBody, hq]
  · intro pressed q mt temp api
    cases pressed <;> by_cases hq : q = "" <;> rcases api with e | t <;>
      simp [configBlock, configTryBody, hq]
  · intro pressed q api
    cases pressed <;> by_cases hq : q = "" <;> rcases api with e | r <;>
      simp [imageBlock, imageTryBody, hq] <;>
      cases hi : (interpret r).2 <;> simp [hi]
  · intro q e hq
    simp [textBlock, textTryBody, hq]
  · intro q mt temp e hq
    simp [configBlock, configTryBody, hq]
  · intro q e hq
    simp [imageBlock, imageTryBody, hq]
  · intro secrets k tP tQ tApi cP cQ mt temp cApi iP iQ iApi h
    simp [runPage, h]

/-- Witness for C7 at a concrete failing image call. -/
theorem C7_errors_contained_witness :
    ("draw" ≠ "")
    ∧ (imageBlock true "draw" (Except.error (PyExn.apiError "quota"))).2 = none
    ∧ Event.errorMsg ("Error generating image: " ++ renderExn (PyExn.apiError "quota"))
        ∈ (imageBlock true "draw" (Except.error (PyExn.apiError "quota"))).1
    ∧ startup [("GOOGLE_API_KEY", "k")] = StartupOutcome.configured "k" :=
  ⟨by decide,
    C7_errors_contained.2.2.1 true "draw" (Except.error (PyExn.apiError "quota")),
    C7_errors_contained.2.2.2.2.2.1 "draw" (PyExn.apiError "quota") (by decide),
    rfl⟩

/-- C8: decoding the base64 encoding of any byte sequence gives back exactly
the original bytes (bytes being naturals below 256). -/
theorem C8_base64_roundtrip (bs : List Nat) (h : ∀ x ∈ bs, x < 256) :
    b64decode (b64encode bs) = some bs :=
  b64decode_b64encode_aux bs h

/-- Witness for C8 at the bytes [0, 1, 127, 254, 255]. -/
theorem C8_base64_roundtrip_witness :
    (∀ x ∈ [0, 1, 127, 254, 255], x < 256)
    ∧ b64decode (b64encode [0, 1, 127, 254, 255]) = some [0, 1, 127, 254, 255] :=
  ⟨by decide, C8_base64_roundtrip [0, 1, 127, 254, 255] (by decide)⟩

/-- C9: pressing any of the three buttons with an empty prompt renders only
the asking-for-input warning: the trace contains no API call, no success
banner and no rendered response, whatever the remote oracle would have
answered. -/
theorem C9_empty_input_guard (tApi cApi : Except PyExn String)
    (iApi : Except PyExn GenerationResponse) (mt : Nat) (temp : ℚ) :
    textBlock true "" tApi = ([Event.warningMsg "Please enter a question."], none)
    ∧ configBlock true "" mt temp cApi
        = ([Event.warningMsg "Please enter a topic to explain."], none)
    ∧ imageBlock true "" iApi
        = ([Event.warningMsg "Please enter an image description."], none) :=
  ⟨rfl, rfl, rfl⟩

/-- C10: the text branch and the image branch of the part loop are mutually
exclusive: a part whose text is non-empty emits only its DisplayText, even
when inline image data is also present (whatever blob it carries, it is
never decoded); and the loop emits at most one output per part. -/
theorem C10_at_most_one_output (p : Part) (blob : Blob) (rest : List Part)
    (hp : p.text ≠ "") :
    interpretParts ({ text := p.text, inline_data := some blob } :: rest)
      = (Output.displayText p.text :: (interpretParts rest).1, (interpretParts rest).2)
    ∧ ∀ ps : List Part, (interpretParts ps).1.length ≤ ps.length := by
  constructor
  · simp [interpretParts, hp]
  · intro ps
    obtain ⟨n, hn, h1, _⟩ := interpretParts_take ps
    calc (interpretParts ps).1.length
        = ((ps.take n).filterMap emitOne).length := by rw [h1]
      _ ≤ (ps.take n).length := List.length_filterMap_le _ _
      _ ≤ ps.length := (List.length_take n ps).le.trans (min_le_right _ _)

/-- Witness for C10 at a part carrying both text and (undecodable) inline
data. -/
theorem C10_at_most_one_output_witness :
    ("a" ≠ "")
    ∧ interpretParts [{ text := "a", inline_data := some { mime_type := "image/png", data := "abc" } }]
        = ([Output.displayText "a"], none) :=
  ⟨by decide, by
    simpa using (C10_at_most_one_output { text := "a", inline_data := none }
      { mime_type := "image/png", data := "abc" } [] (by decide)).1⟩

end GenAI
